import Mathlib

/-!
Verification of `src/api/dependencies.py` of the vapi personal-assistant
voice-agent service: per-request database session provisioning, repository
factories, and the tool-call validator factory `get_validated_tool_call`.

The request/response domain types, the JSON-argument parser and the session
abstraction live in sibling modules of the repository that are imported by
`dependencies.py`; where such a collaborator is needed its shape is modelled
from the specification and is marked as such in its doc comment.
-/

namespace VapiDeps

/-- Modelled from the spec: the `function` part of a tool call in a
`VapiRequest` (the domain model module `src/models/domain/request.py` is not
available): a function name and a raw string-encoded arguments payload. -/
structure ToolCallFunction where
  name : String
  arguments : String
  deriving DecidableEq, Repr

/-- Modelled from the spec: one tool call of a request — an identifier plus
its function part. -/
structure ToolCall where
  id : String
  function : ToolCallFunction
  deriving DecidableEq, Repr

/-- Modelled from the spec: the `message` part of a request, an ordered
sequence of tool calls. -/
structure Message where
  toolCalls : List ToolCall
  deriving DecidableEq, Repr

/-- Modelled from the spec: the inbound request shape
`{ message: { toolCalls: [ { id, function: { name, arguments } } ] } }`. -/
structure VapiRequest where
  message : Message
  deriving DecidableEq, Repr

/-- Modelled from the spec: the generic wrapper returned on success
(`src/models/domain/tool.py` is not available): the matched tool call's
identifier and its arguments decoded and validated into the schema type. -/
structure ValidatedToolCall (T : Type) where
  tool_call_id : String
  args : T
  deriving DecidableEq, Repr

/-- FastAPI's `HTTPException`, reduced to the two fields `dependencies.py`
sets: a status code and a detail message. -/
structure HTTPException where
  status_code : Nat
  detail : String
  deriving DecidableEq, Repr

/-- The kinds of exception that can escape the `try` body of
`validate_dependency`: an already-classified `HTTPException`, a pydantic
`ValidationError` from constructing the args model, or any other exception
(for instance a JSON parse failure). -/
inductive PyError where
  | httpException (status_code : Nat) (detail : String)
  | validationError (msg : String)
  | otherError (msg : String)
  deriving DecidableEq, Repr

/-- Detail message of the 400 error raised when no tool call matches
(`dependencies.py` line 52): `Invalid Request: Expected '<name>' function
call`. -/
def noMatchDetail (function_name : String) : String :=
  "Invalid Request: Expected \x27" ++ function_name ++ "\x27 function call"

/-- Detail message of the 422 error raised on a `ValidationError`
(`dependencies.py` line 60): `Invalid arguments for <name>: <error>`. -/
def validationDetail (function_name : String) (e : String) : String :=
  "Invalid arguments for " ++ function_name ++ ": " ++ e

/-- Body of the matched branch of the loop (`dependencies.py` lines 43-48):
parse the raw arguments, construct the args model, return the wrapper. The
parser is passed in as `parse_json_args`; Modelled from the spec for the
missing `src/utils/helpers.py`: it fails on malformed input, and such a
failure is an ordinary exception (not a pydantic `ValidationError`), hence
`PyError.otherError`. A schema mismatch in the args-model constructor is a
`ValidationError`, hence `PyError.validationError`. -/
def processMatch (parse_json_args : String → Except String J)
    (args_model : J → Except String T) (tool_call : ToolCall) :
    Except PyError (ValidatedToolCall T) :=
  match parse_json_args tool_call.function.arguments with
  | Except.error e => Except.error (PyError.otherError e)
  | Except.ok args_dict =>
    match args_model args_dict with
    | Except.error e => Except.error (PyError.validationError e)
    | Except.ok validated_args =>
      Except.ok ⟨tool_call.id, validated_args⟩

/-- The `for` loop of `validate_dependency` (`dependencies.py` lines 41-54):
scan the tool calls in order; on the first whose function name equals the
target, process it; if the scan finishes with no match, raise the 400
`HTTPException`. -/
def findAndValidate (parse_json_args : String → Except String J)
    (function_name : String) (args_model : J → Except String T) :
    List ToolCall → Except PyError (ValidatedToolCall T)
  | [] =>
    Except.error (PyError.httpException 400 (noMatchDetail function_name))
  | tool_call :: rest =>
    if tool_call.function.name == function_name then
      processMatch parse_json_args args_model tool_call
    else
      findAndValidate parse_json_args function_name args_model rest

/-- The `except` clauses of `validate_dependency` (`dependencies.py` lines
55-64): an `HTTPException` is re-raised unchanged, a `ValidationError`
becomes a 422 with the function name and the error text, anything else
becomes a 500 carrying the raw error text. -/
def classifyError (function_name : String) : PyError → HTTPException
  | PyError.httpException s d => ⟨s, d⟩
  | PyError.validationError e => ⟨422, validationDetail function_name e⟩
  | PyError.otherError e => ⟨500, e⟩

/-- `validate_dependency` (`dependencies.py` lines 37-64): run the scan and
translate any escaping exception through the `except` clauses. -/
def validate_dependency (parse_json_args : String → Except String J)
    (function_name : String) (args_model : J → Except String T)
    (request : VapiRequest) : Except HTTPException (ValidatedToolCall T) :=
  match findAndValidate parse_json_args function_name args_model
      request.message.toolCalls with
  | Except.ok v => Except.ok v
  | Except.error e => Except.error (classifyError function_name e)

/-- `get_validated_tool_call` (`dependencies.py` lines 36-66): the factory
returning the request-scoped validator closure. -/
def get_validated_tool_call (parse_json_args : String → Except String J)
    (function_name : String) (args_model : J → Except String T) :
    VapiRequest → Except HTTPException (ValidatedToolCall T) :=
  validate_dependency parse_json_args function_name args_model

/-- The first tool call of a list whose function name equals the target:
the specification-side description of what the loop selects. -/
def firstToolCallNamed (function_name : String) (calls : List ToolCall) :
    Option ToolCall :=
  calls.find? (fun tool_call => tool_call.function.name == function_name)

/-- Specification-side description of the whole validator, as a function of
the first matching tool call alone. -/
def validatorSpec (parse_json_args : String → Except String J)
    (function_name : String) (args_model : J → Except String T)
    (request : VapiRequest) : Except HTTPException (ValidatedToolCall T) :=
  match firstToolCallNamed function_name request.message.toolCalls with
  | none => Except.error ⟨400, noMatchDetail function_name⟩
  | some tool_call =>
    match parse_json_args tool_call.function.arguments with
    | Except.error e => Except.error ⟨500, e⟩
    | Except.ok args_dict =>
      match args_model args_dict with
      | Except.error e =>
        Except.error ⟨422, validationDetail function_name e⟩
      | Except.ok validated_args =>
        Except.ok ⟨tool_call.id, validated_args⟩

theorem findAndValidate_eq_find? (parse_json_args : String → Except String J)
    (function_name : String) (args_model : J → Except String T)
    (calls : List ToolCall) :
    findAndValidate parse_json_args function_name args_model calls =
      match firstToolCallNamed function_name calls with
      | none =>
        Except.error (PyError.httpException 400 (noMatchDetail function_name))
      | some tool_call => processMatch parse_json_args args_model tool_call := by
  induction calls with
  | nil => rfl
  | cons tool_call rest ih =>
    unfold firstToolCallNamed at ih ⊢
    cases h : tool_call.function.name == function_name with
    | true => simp [findAndValidate, List.find?_cons, h]
    | false => simp [findAndValidate, List.find?_cons, h, ih]

theorem classify_processMatch
    (parse_json_args : String → Except String J) (function_name : String)
    (args_model : J → Except String T) (tool_call : ToolCall) :
    (match processMatch parse_json_args args_model tool_call with
      | Except.ok v => Except.ok v
      | Except.error e => Except.error (classifyError function_name e)) =
      (match parse_json_args tool_call.function.arguments with
        | Except.error e =>
          (Except.error ⟨500, e⟩ : Except HTTPException (ValidatedToolCall T))
        | Except.ok args_dict =>
          match args_model args_dict with
          | Except.error e =>
            Except.error ⟨422, validationDetail function_name e⟩
          | Except.ok validated_args =>
            Except.ok ⟨tool_call.id, validated_args⟩) := by
  unfold processMatch
  cases parse_json_args tool_call.function.arguments with
  | error e => rfl
  | ok args_dict =>
    cases hm : args_model args_dict with
    | error e => simp [hm, classifyError]
    | ok validated_args => simp [hm]

/-- The validator equals its specification-side description: its outcome is
determined by the first matching tool call. -/
theorem validate_dependency_eq_spec
    (parse_json_args : String → Except String J) (function_name : String)
    (args_model : J → Except String T) (request : VapiRequest) :
    validate_dependency parse_json_args function_name args_model request =
      validatorSpec parse_json_args function_name args_model request := by
  unfold validate_dependency validatorSpec
  rw [findAndValidate_eq_find?]
  cases h : firstToolCallNamed function_name request.message.toolCalls with
  | none => rfl
  | some tool_call =>
    exact classify_processMatch parse_json_args function_name args_model
      tool_call

/-- Modelled from the spec: an opaque handle to a transactional database
connection (`src/models/base.py` is not available); identified here by a
numeric tag so that lifecycle events can name the session they concern. -/
structure Session where
  sid : Nat
  deriving DecidableEq, Repr

/-- Observable session-lifecycle events: a session being opened and a session
being closed. -/
inductive DbEvent where
  | sessionOpened (sid : Nat)
  | sessionClosed (sid : Nat)
  deriving DecidableEq, Repr

/-- Modelled from the spec: `SessionLocal()` (imported from
`src/models/base.py`, not available) opens one database session — the
`open() -> Session` operation of the session abstraction — recorded as an
observable event. -/
def SessionLocal (fresh : Nat) : Session × List DbEvent :=
  (⟨fresh⟩, [DbEvent.sessionOpened fresh])

/-- Modelled from the spec: `db.close()` — the `close(Session) -> void`
operation of the session abstraction — recorded as an observable event. -/
def sessionClose (db : Session) : List DbEvent :=
  [DbEvent.sessionClosed db.sid]

/-- A `try`/`finally` block over an event trace: the finalizer's events are
appended whether the body finished normally or with an error; the body's
outcome (normal value or error) is passed through unchanged. -/
def tryFinally (body : Except ε α × List DbEvent)
    (finalizer : List DbEvent) : Except ε α × List DbEvent :=
  (body.1, body.2 ++ finalizer)

/-- `get_db` (`dependencies.py` lines 20-25): open a session, yield it to the
caller (whose processing may finish normally or fail with an error), and close
it in the `finally` block. The caller's use of the session is abstracted as a
function from the session to an outcome; the caller does not manage the
session's lifecycle. -/
def get_db (fresh : Nat) (use : Session → Except ε α) :
    Except ε α × List DbEvent :=
  let opened := SessionLocal fresh
  let result := tryFinally (use opened.1, []) (sessionClose opened.1)
  (result.1, opened.2 ++ result.2)

/-- Modelled from the spec: `TodoRepository` (from
`src/repositories/todo_repository.py`, not available) — a thin object bound to
exactly one session, no state beyond that binding. -/
structure TodoRepository where
  db : Session
  deriving DecidableEq, Repr

/-- Modelled from the spec: `ReminderRepository` (from
`src/repositories/reminder_repository.py`, not available) — a thin object
bound to exactly one session, no state beyond that binding. -/
structure ReminderRepository where
  db : Session
  deriving DecidableEq, Repr

/-- Modelled from the spec: `CalendarEventRepository` (from
`src/repositories/calendar_event_repository.py`, not available) — a thin
object bound to exactly one session, no state beyond that binding. -/
structure CalendarEventRepository where
  db : Session
  deriving DecidableEq, Repr

/-- `get_todo_repository` (`dependencies.py` lines 27-28): wrap the already
acquired session in a todo repository. Total — no validation, no error
path. -/
def get_todo_repository (db : Session) : TodoRepository :=
  ⟨db⟩

/-- `get_reminder_repository` (`dependencies.py` lines 30-31): wrap the
already acquired session in a reminder repository. Total — no validation, no
error path. -/
def get_reminder_repository (db : Session) : ReminderRepository :=
  ⟨db⟩

/-- `get_calendar_event_repository` (`dependencies.py` lines 33-34): wrap the
already acquired session in a calendar-event repository. Total — no
validation, no error path. -/
def get_calendar_event_repository (db : Session) : CalendarEventRepository :=
  ⟨db⟩

theorem find?_append_cons_of_no_match (p : ToolCall → Bool)
    (after : List ToolCall) (tool_call : ToolCall)
    (hmatch : p tool_call = true) :
    ∀ before : List ToolCall, (∀ tc ∈ before, p tc = false) →
      (before ++ tool_call :: after).find? p = some tool_call
  | [], _ => by simp [List.find?_cons, hmatch]
  | a :: t, hbefore => by
    rw [List.cons_append, List.find?_cons, hbefore a (by simp)]
    exact find?_append_cons_of_no_match p after tool_call hmatch t
      (fun tc htc => hbefore tc (by simp [htc]))

/-- Concrete tool call used in witnesses: a `delete_task` call. -/
def demoCallOther : ToolCall :=
  ⟨"3", ⟨"delete_task", "argsOk"⟩⟩

/-- Concrete tool call used in witnesses: a `create_task` call whose
arguments parse and validate. -/
def demoCallOk : ToolCall :=
  ⟨"1", ⟨"create_task", "argsOk"⟩⟩

/-- Concrete tool call used in witnesses: a `create_task` call whose
arguments do not parse. -/
def demoCallBad : ToolCall :=
  ⟨"2", ⟨"create_task", "argsBad"⟩⟩

/-- Concrete tool call used in witnesses: a `create_task` call whose
arguments parse but fail schema validation. -/
def demoCallEmpty : ToolCall :=
  ⟨"4", ⟨"create_task", "argsEmpty"⟩⟩

/-- Concrete JSON-argument parser used in witnesses. -/
def demoParse : String → Except String Nat := fun s =>
  if s == "argsOk" then Except.ok 1
  else if s == "argsEmpty" then Except.ok 2
  else Except.error "Expecting value"

/-- Concrete args-model constructor used in witnesses: succeeds only on the
parse result `1`. -/
def demoModel : Nat → Except String String := fun j =>
  if j == 1 then Except.ok "buy milk"
  else Except.error "title: field required"

/-- C1: for every request whose selected tool call named `function_name`
(the first such call, per the spec invariant that first match by sequence
order wins) has arguments that parse and validate, the validator returns a
`ValidatedToolCall` carrying that tool call's identifier and the validated
arguments. -/
theorem validator_success_returns_matched_id_and_args
    (parse_json_args : String → Except String J) (function_name : String)
    (args_model : J → Except String T) (request : VapiRequest)
    (tool_call : ToolCall) (args_dict : J) (validated_args : T)
    (hfind : firstToolCallNamed function_name request.message.toolCalls
      = some tool_call)
    (hparse : parse_json_args tool_call.function.arguments
      = Except.ok args_dict)
    (hvalid : args_model args_dict = Except.ok validated_args) :
    get_validated_tool_call parse_json_args function_name args_model request
      = Except.ok ⟨tool_call.id, validated_args⟩ := by
  simp [get_validated_tool_call, validate_dependency_eq_spec, validatorSpec,
    hfind, hparse, hvalid]

theorem validator_success_returns_matched_id_and_args_witness :
    get_validated_tool_call demoParse "create_task" demoModel
        ⟨⟨[demoCallOther, demoCallOk, demoCallBad]⟩⟩
      = Except.ok ⟨"1", "buy milk"⟩ :=
  validator_success_returns_matched_id_and_args demoParse "create_task"
    demoModel ⟨⟨[demoCallOther, demoCallOk, demoCallBad]⟩⟩ demoCallOk 1
    "buy milk" (by decide) (by rfl) (by rfl)

/-- C2: the first tool call named `function_name` in sequence order
determines the validator's outcome: for any prefix of non-matching calls and
any suffix (which may contain further calls named `function_name`), the
outcome equals the outcome on the request holding the matched call alone —
later matches are ignored and at most one call is ever selected. -/
theorem validator_first_match_wins
    (parse_json_args : String → Except String J) (function_name : String)
    (args_model : J → Except String T) (before after : List ToolCall)
    (tool_call : ToolCall)
    (hbefore : ∀ tc ∈ before, tc.function.name ≠ function_name)
    (hname : tool_call.function.name = function_name) :
    validate_dependency parse_json_args function_name args_model
        ⟨⟨before ++ tool_call :: after⟩⟩
      = validate_dependency parse_json_args function_name args_model
        ⟨⟨[tool_call]⟩⟩ := by
  have h1 : firstToolCallNamed function_name (before ++ tool_call :: after)
      = some tool_call :=
    find?_append_cons_of_no_match _ after tool_call (by simp [hname]) before
      (fun tc htc => by simp [hbefore tc htc])
  have h2 : firstToolCallNamed function_name [tool_call] = some tool_call := by
    simp [firstToolCallNamed, List.find?_cons, hname]
  rw [validate_dependency_eq_spec, validate_dependency_eq_spec]
  simp [validatorSpec, h1, h2]

theorem validator_first_match_wins_witness :
    validate_dependency demoParse "create_task" demoModel
        ⟨⟨[demoCallOther] ++ demoCallOk :: [demoCallBad]⟩⟩
      = validate_dependency demoParse "create_task" demoModel
        ⟨⟨[demoCallOk]⟩⟩ :=
  validator_first_match_wins demoParse "create_task" demoModel
    [demoCallOther] [demoCallBad] demoCallOk (by decide) (by decide)

/-- C3: when no tool call of the request is named `function_name` (in
particular when the tool-call sequence is empty) the validator fails with
status 400 and a detail naming the expected function, and an
already-classified `HTTPException` passes through the `except` boundary
unchanged — it is not re-classified to 422 or 500. -/
theorem validator_no_match_bad_request
    (parse_json_args : String → Except String J) (function_name : String)
    (args_model : J → Except String T) (request : VapiRequest)
    (hfind : firstToolCallNamed function_name request.message.toolCalls
      = none) :
    (get_validated_tool_call parse_json_args function_name args_model request
        = Except.error ⟨400, noMatchDetail function_name⟩)
      ∧ (∃ pre post,
          noMatchDetail function_name = pre ++ function_name ++ post)
      ∧ (∀ s d, classifyError function_name (PyError.httpException s d)
          = ⟨s, d⟩) := by
  refine ⟨?_, ⟨"Invalid Request: Expected \x27", "\x27 function call", rfl⟩,
    fun s d => rfl⟩
  simp [get_validated_tool_call, validate_dependency_eq_spec, validatorSpec,
    hfind]

theorem validator_no_match_bad_request_witness :
    (get_validated_tool_call demoParse "delete_all" demoModel
        ⟨⟨[demoCallOther, demoCallOk]⟩⟩
        = Except.error ⟨400, noMatchDetail "delete_all"⟩)
      ∧ (∃ pre post, noMatchDetail "delete_all" = pre ++ "delete_all" ++ post)
      ∧ (∀ s d, classifyError "delete_all" (PyError.httpException s d)
          = ⟨s, d⟩) :=
  validator_no_match_bad_request demoParse "delete_all" demoModel
    ⟨⟨[demoCallOther, demoCallOk]⟩⟩ (by decide)

/-- C4: when the first tool call named `function_name` has arguments that
parse but fail schema validation, the validator fails with status 422 and a
detail containing the function name and the validator-produced detail. -/
theorem validator_schema_failure_unprocessable
    (parse_json_args : String → Except String J) (function_name : String)
    (args_model : J → Except String T) (request : VapiRequest)
    (tool_call : ToolCall) (args_dict : J) (e : String)
    (hfind : firstToolCallNamed function_name request.message.toolCalls
      = some tool_call)
    (hparse : parse_json_args tool_call.function.arguments
      = Except.ok args_dict)
    (hvalid : args_model args_dict = Except.error e) :
    (get_validated_tool_call parse_json_args function_name args_model request
        = Except.error ⟨422, validationDetail function_name e⟩)
      ∧ (∃ pre mid, validationDetail function_name e
          = pre ++ function_name ++ mid ++ e) := by
  refine ⟨?_, ⟨"Invalid arguments for ", ": ", rfl⟩⟩
  simp [get_validated_tool_call, validate_dependency_eq_spec, validatorSpec,
    hfind, hparse, hvalid]

theorem validator_schema_failure_unprocessable_witness :
    (get_validated_tool_call demoParse "create_task" demoModel
        ⟨⟨[demoCallEmpty, demoCallOk]⟩⟩
        = Except.error
          ⟨422, validationDetail "create_task" "title: field required"⟩)
      ∧ (∃ pre mid, validationDetail "create_task" "title: field required"
          = pre ++ "create_task" ++ mid ++ "title: field required") :=
  validator_schema_failure_unprocessable demoParse "create_task" demoModel
    ⟨⟨[demoCallEmpty, demoCallOk]⟩⟩ demoCallEmpty 2 "title: field required"
    (by decide) (by rfl) (by rfl)

/-- C5: when the first tool call named `function_name` carries a malformed
arguments string — the parser failing with an ordinary, non-ValidationError
exception — the validator fails with status 500 carrying the raw error text:
an UnexpectedFailure, not a 422 ValidationFailure. -/
theorem validator_parse_failure_internal_error
    (parse_json_args : String → Except String J) (function_name : String)
    (args_model : J → Except String T) (request : VapiRequest)
    (tool_call : ToolCall) (e : String)
    (hfind : firstToolCallNamed function_name request.message.toolCalls
      = some tool_call)
    (hparse : parse_json_args tool_call.function.arguments
      = Except.error e) :
    (get_validated_tool_call parse_json_args function_name args_model request
        = Except.error ⟨500, e⟩)
      ∧ (⟨500, e⟩ : HTTPException).status_code ≠ 422 := by
  refine ⟨?_, by simp⟩
  simp [get_validated_tool_call, validate_dependency_eq_spec, validatorSpec,
    hfind, hparse]

theorem validator_parse_failure_internal_error_witness :
    (get_validated_tool_call demoParse "create_task" demoModel
        ⟨⟨[demoCallBad, demoCallOk]⟩⟩
        = Except.error ⟨500, "Expecting value"⟩)
      ∧ (⟨500, "Expecting value"⟩ : HTTPException).status_code ≠ 422 :=
  validator_parse_failure_internal_error demoParse "create_task" demoModel
    ⟨⟨[demoCallBad, demoCallOk]⟩⟩ demoCallBad "Expecting value"
    (by decide) (by rfl)

/-- C6: for every request the validator either succeeds with a
`ValidatedToolCall` or fails with exactly one of the three classified errors
— status 400, 422 or 500 — each carrying a detail message; there is no other
outcome and no failure is swallowed. -/
theorem validator_total_classification
    (parse_json_args : String → Except String J) (function_name : String)
    (args_model : J → Except String T) (request : VapiRequest) :
    (∃ v, get_validated_tool_call parse_json_args function_name args_model
        request = Except.ok v)
      ∨ (∃ d, get_validated_tool_call parse_json_args function_name args_model
          request = Except.error ⟨400, d⟩)
      ∨ (∃ d, get_validated_tool_call parse_json_args function_name args_model
          request = Except.error ⟨422, d⟩)
      ∨ (∃ d, get_validated_tool_call parse_json_args function_name args_model
          request = Except.error ⟨500, d⟩) := by
  unfold get_validated_tool_call
  rw [validate_dependency_eq_spec]
  unfold validatorSpec
  cases hf : firstToolCallNamed function_name request.message.toolCalls with
  | none => exact Or.inr (Or.inl ⟨noMatchDetail function_name, rfl⟩)
  | some tool_call =>
    cases hp : parse_json_args tool_call.function.arguments with
    | error e => exact Or.inr (Or.inr (Or.inr ⟨e, by simp [hp]⟩))
    | ok args_dict =>
      cases hm : args_model args_dict with
      | error e =>
        exact Or.inr (Or.inr (Or.inl
          ⟨validationDetail function_name e, by simp [hp, hm]⟩))
      | ok validated_args =>
        exact Or.inl ⟨⟨tool_call.id, validated_args⟩, by simp [hp, hm]⟩

/-- C7: `get_db` opens exactly one session and — on both exit paths, the
caller's processing finishing normally or failing with an error — closes it
exactly once, passing the caller's outcome through unchanged. -/
theorem get_db_opens_and_closes_once (fresh : Nat)
    (use : Session → Except ε α) :
    ((get_db fresh use).2.count (DbEvent.sessionOpened fresh) = 1
      ∧ (get_db fresh use).2.count (DbEvent.sessionClosed fresh) = 1)
      ∧ (get_db fresh use).1 = use ⟨fresh⟩ := by
  refine ⟨⟨?_, ?_⟩, rfl⟩ <;>
    simp [get_db, SessionLocal, sessionClose, tryFinally, List.count_cons]

/-- C8: each repository factory returns a repository bound to exactly the
session it was given; the factories are total (no validation, no error path
of their own). -/
theorem repository_factories_bind_session (db : Session) :
    (get_todo_repository db).db = db
      ∧ (get_reminder_repository db).db = db
      ∧ (get_calendar_event_repository db).db = db :=
  ⟨rfl, rfl, rfl⟩

/-- C9: the validator's outcome depends only on the identifier and arguments
string of the first tool call named `function_name`, and on whether such a
call exists: two requests agreeing on that projection get the same result,
so the arguments of differently-named calls and of later matches never
influence (and in particular are never parsed or validated in) the
outcome. -/
theorem validator_depends_only_on_first_match
    (parse_json_args : String → Except String J) (function_name : String)
    (args_model : J → Except String T) (request1 request2 : VapiRequest)
    (hagree : Option.map (fun tc => (tc.id, tc.function.arguments))
        (firstToolCallNamed function_name request1.message.toolCalls)
      = Option.map (fun tc => (tc.id, tc.function.arguments))
        (firstToolCallNamed function_name request2.message.toolCalls)) :
    get_validated_tool_call parse_json_args function_name args_model request1
      = get_validated_tool_call parse_json_args function_name args_model
        request2 := by
  unfold get_validated_tool_call
  rw [validate_dependency_eq_spec, validate_dependency_eq_spec]
  unfold validatorSpec
  cases h1 : firstToolCallNamed function_name request1.message.toolCalls with
  | none =>
    cases h2 : firstToolCallNamed function_name request2.message.toolCalls with
    | none => rfl
    | some tc2 => rw [h1, h2] at hagree; simp at hagree
  | some tc1 =>
    cases h2 : firstToolCallNamed function_name request2.message.toolCalls with
    | none => rw [h1, h2] at hagree; simp at hagree
    | some tc2 =>
      rw [h1, h2] at hagree
      simp at hagree
      obtain ⟨hid, hargs⟩ := hagree
      simp [hid, hargs]

theorem validator_depends_only_on_first_match_witness :
    get_validated_tool_call demoParse "create_task" demoModel
        ⟨⟨[demoCallOther, demoCallOk, demoCallBad]⟩⟩
      = get_validated_tool_call demoParse "create_task" demoModel
        ⟨⟨[⟨"1", ⟨"create_task", "argsOk"⟩⟩]⟩⟩ :=
  validator_depends_only_on_first_match demoParse "create_task" demoModel
    ⟨⟨[demoCallOther, demoCallOk, demoCallBad]⟩⟩
    ⟨⟨[⟨"1", ⟨"create_task", "argsOk"⟩⟩]⟩⟩ (by decide)

/-- C10: no non-empty-identifier precondition is enforced on the target
function name: for the empty string the validator follows the very same
first-match rule — it processes the first tool call whose function name is
the empty string, and fails with status 400 when no tool call has an empty
function name. -/
theorem validator_empty_name_first_match_rule
    (parse_json_args : String → Except String J)
    (args_model : J → Except String T) (request : VapiRequest) :
    get_validated_tool_call parse_json_args "" args_model request
      = match firstToolCallNamed "" request.message.toolCalls with
        | none => Except.error ⟨400, noMatchDetail ""⟩
        | some tool_call =>
          match parse_json_args tool_call.function.arguments with
          | Except.error e => Except.error ⟨500, e⟩
          | Except.ok args_dict =>
            match args_model args_dict with
            | Except.error e => Except.error ⟨422, validationDetail "" e⟩
            | Except.ok validated_args =>
              Except.ok ⟨tool_call.id, validated_args⟩ :=
  validate_dependency_eq_spec parse_json_args "" args_model request

end VapiDeps
